import Mathlib

/-!
Verification development for the Multiquip IoT platform's core analytic logic
(`src/MultiquipPlatform.js` and the mock data service): the sensor synthesizer
`generateSensorData`, feature preparation `prepareMLData`, the prediction
generator `generateMLPredictions` (with the mock variant `getMockMLPredictions`),
the training driver `trainPredictiveModel`, and the rule-based diagnosis
`analyzeRootCause`.

Modelling conventions:
* JavaScript numbers are modelled as rationals (`ℚ`); every IEEE double is a
  rational, and all arithmetic the claims touch is exact on the values involved.
* `Math.sin` / `Math.cos` are runtime-supplied approximations of sine and
  cosine; they are modelled as environment functions (`Env.sinq`, `Env.cosq`,
  and `Env.sinHour`/`Env.cosHour` for the `sin(2*pi*hour/24)` feature terms).
  All universal theorems hold for every such environment; concrete evaluations
  only use argument `0`, where `sin 0 = 0` and `cos 0 = 1` exactly.
* `Math.random()` is modelled as an injected sample stream `Env.rand : ℕ → ℚ`,
  indexed by call order (`generateSensorData` draws samples `0,1,2` for the
  per-call baselines and `3+5*i .. 7+5*i` inside iteration `i`).
  `Env.Admissible` records the true range of `Math.random()`: `[0, 1)`.
* `x.toFixed(d)` followed by `parseFloat` is modelled by `roundDec d`
  (round half up at `d` decimal places; the values involved are positive).
* Timestamps are epoch milliseconds (`ℤ`); `toISOString` is presentation.
-/

/-- Round half up at `d` decimal places: the model of
`parseFloat(x.toFixed(d))` for the nonnegative values this code produces. -/
def roundDec (d : ℕ) (x : ℚ) : ℚ := (⌊x * 10 ^ d + 1 / 2⌋ : ℚ) / 10 ^ d

/-- The ambient runtime environment of the synthesizer and feature code:
the `Math.random()` sample stream, the runtime sine/cosine, the clock, and
the local-time hour extraction `new Date(ts).getHours()`. -/
structure Env where
  rand : ℕ → ℚ
  sinq : ℚ → ℚ
  cosq : ℚ → ℚ
  sinHour : ℕ → ℚ
  cosHour : ℕ → ℚ
  getHours : ℤ → ℕ
  now : ℤ

/-- `Math.random()` always returns a value in `[0, 1)`. -/
def Env.Admissible (env : Env) : Prop := ∀ k : ℕ, 0 ≤ env.rand k ∧ env.rand k < 1

/-- One synthesized sensor reading, as pushed by `generateSensorData`
(`src/MultiquipPlatform.js:247-257`).  Channel fields carry the
`toFixed`-rounded values that are stored; `timestamp` is epoch ms. -/
structure Reading where
  equipmentId : String
  timestamp : ℤ
  temperature : ℚ
  vibration : ℚ
  pressure : ℚ
  current : ℚ
  operatingHours : ℚ
  failureRisk : ℚ
  maintenance_needed : ℕ
deriving DecidableEq, Repr

/-- `tempScore = Math.max(0, (temp - 90) / 20)` (line 241). -/
def tempScoreOf (temp : ℚ) : ℚ := max 0 ((temp - 90) / 20)

/-- `vibrationScore = Math.max(0, (vibration - 2) / 1)` (line 242). -/
def vibrationScoreOf (vibration : ℚ) : ℚ := max 0 ((vibration - 2) / 1)

/-- `pressureScore = Math.max(0, Math.abs(pressure - 125) / 25)` (line 243). -/
def pressureScoreOf (pressure : ℚ) : ℚ := max 0 (|pressure - 125| / 25)

/-- `failureRisk = Math.min(1, (tempScore + vibrationScore + pressureScore) / 3)`
(line 245), as a function of the instantaneous (pre-rounding) channel values. -/
def failureRiskOf (temp vibration pressure : ℚ) : ℚ :=
  min 1 ((tempScoreOf temp + vibrationScoreOf vibration + pressureScoreOf pressure) / 3)

/-- `baseTemp = 75 + Math.random() * 20` (line 227, sample index 0). -/
def baseTemp (env : Env) : ℚ := 75 + env.rand 0 * 20

/-- `baseVibration = 0.5 + Math.random() * 1.5` (line 228, sample index 1). -/
def baseVibration (env : Env) : ℚ := 1 / 2 + env.rand 1 * (3 / 2)

/-- `basePressure = 100 + Math.random() * 50` (line 229, sample index 2). -/
def basePressure (env : Env) : ℚ := 100 + env.rand 2 * 50

/-- `temp = baseTemp + Math.sin(i / 24) * 5 + Math.random() * 3` (line 235). -/
def rawTemperature (env : Env) (i : ℕ) : ℚ :=
  baseTemp env + env.sinq ((i : ℚ) / 24) * 5 + env.rand (3 + 5 * i) * 3

/-- `vibration = baseVibration + Math.sin(i / 12) * 0.3 + Math.random() * 0.1`
(line 236). -/
def rawVibration (env : Env) (i : ℕ) : ℚ :=
  baseVibration env + env.sinq ((i : ℚ) / 12) * (3 / 10) + env.rand (4 + 5 * i) * (1 / 10)

/-- `pressure = basePressure + Math.cos(i / 6) * 10 + Math.random() * 5`
(line 237). -/
def rawPressure (env : Env) (i : ℕ) : ℚ :=
  basePressure env + env.cosq ((i : ℚ) / 6) * 10 + env.rand (5 + 5 * i) * 5

/-- `current = 15 + Math.sin(i / 8) * 3 + Math.random() * 2` (line 238). -/
def rawCurrent (env : Env) (i : ℕ) : ℚ :=
  15 + env.sinq ((i : ℚ) / 8) * 3 + env.rand (6 + 5 * i) * 2

/-- The object pushed at loop index `i` of `generateSensorData(equipmentId, days)`
(lines 231-258): timestamp `now - (days*24 - i)` hours, `toFixed`-rounded
channels, `operatingHours = i + Math.random() * 1000`, the derived
`failureRisk` (stored through `toFixed(3)`) and the `maintenance_needed`
flag computed from the pre-rounding risk. -/
def mkReading (env : Env) (equipmentId : String) (days i : ℕ) : Reading :=
  let temp := rawTemperature env i
  let vibration := rawVibration env i
  let pressure := rawPressure env i
  let current := rawCurrent env i
  let failureRisk := failureRiskOf temp vibration pressure
  { equipmentId := equipmentId
    timestamp := env.now - ((days : ℤ) * 24 - (i : ℤ)) * 3600000
    temperature := roundDec 2 temp
    vibration := roundDec 3 vibration
    pressure := roundDec 1 pressure
    current := roundDec 2 current
    operatingHours := (i : ℚ) + env.rand (7 + 5 * i) * 1000
    failureRisk := roundDec 3 failureRisk
    maintenance_needed := if failureRisk > 7 / 10 then 1 else 0 }

/-- `generateSensorData(equipmentId, days)` (lines 225-260): one reading per
loop index `i ∈ [0, days*24)`, hourly cadence, oldest first. -/
def generateSensorData (env : Env) (equipmentId : String) (days : ℕ) : List Reading :=
  (List.range (days * 24)).map (mkReading env equipmentId days)

/-! ## Feature preparation and the ML prediction generator -/

/-- The spec's `toFeatureVector(reading)` contract (spec section 4.2):
`[temp/100, vibration/3, pressure/200, current/30, sin(2*pi*hourOfDay/24),
cos(2*pi*hourOfDay/24), operatingHours/10000]`.  The two sine/cosine time
features are the runtime values `Env.sinHour h` / `Env.cosHour h` at
`h = getHours(timestamp)`. -/
def toFeatureVector (env : Env) (r : Reading) : List ℚ :=
  [r.temperature / 100, r.vibration / 3, r.pressure / 200, r.current / 30,
   env.sinHour (env.getHours r.timestamp), env.cosHour (env.getHours r.timestamp),
   r.operatingHours / 10000]

/-- `prepareMLData(rawData)` (lines 276-294): the feature rows (the inline
7-entry list per record) and the `maintenance_needed` labels.  The tensor
wrappers `tf.tensor2d` / `tf.tensor1d` are modelled as the underlying lists. -/
def prepareMLData (env : Env) (rawData : List Reading) : List (List ℚ) × List ℕ :=
  (rawData.map (fun record =>
    [record.temperature / 100,
     record.vibration / 3,
     record.pressure / 200,
     record.current / 30,
     env.sinHour (env.getHours record.timestamp),
     env.cosHour (env.getHours record.timestamp),
     record.operatingHours / 10000]),
   rawData.map (fun record => record.maintenance_needed))

/-- The inline feature row built in `generateMLPredictions` (lines 414-422)
for the latest reading of one equipment unit. -/
def predictionFeatures (env : Env) (latestReading : Reading) : List ℚ :=
  [latestReading.temperature / 100,
   latestReading.vibration / 3,
   latestReading.pressure / 200,
   latestReading.current / 30,
   env.sinHour (env.getHours latestReading.timestamp),
   env.cosHour (env.getHours latestReading.timestamp),
   latestReading.operatingHours / 10000]

/-- Risk tier enum: the `'low' | 'medium' | 'high'` strings. -/
inductive RiskLevel where
  | low
  | medium
  | high
deriving DecidableEq, Repr, BEq

/-- Order of tiers for the monotonicity statements: low < medium < high. -/
def tierRank : RiskLevel → ℕ
  | .low => 0
  | .medium => 1
  | .high => 2

/-- `riskLevel > 0.7 ? 'high' : riskLevel > 0.4 ? 'medium' : 'low'`
(`generateMLPredictions`, line 435; probability on the unit scale). -/
def riskLevelOf (riskLevel : ℚ) : RiskLevel :=
  if riskLevel > 7 / 10 then .high else if riskLevel > 2 / 5 then .medium else .low

/-- `failureProbability > 70 ? 'high' : failureProbability > 40 ? 'medium' : 'low'`
(`getMockMLPredictions`, mock service line 398; percentage scale). -/
def mockRiskLevelOf (failureProbability : ℚ) : RiskLevel :=
  if failureProbability > 70 then .high
  else if failureProbability > 40 then .medium
  else .low

/-- The trained classifier, as the prediction generator consumes it: a
black box mapping a feature row to a failure probability
(`trainedModel.predict`).  The network internals are out of scope
(spec section 4.3 treats the classifier as a black-box interface). -/
structure MLModel where
  predict : List ℚ → ℚ

/-- The four sensor values copied into a prediction (lines 440-445). -/
structure PredictionSensors where
  temperature : ℚ
  vibration : ℚ
  pressure : ℚ
  current : ℚ
deriving DecidableEq, Repr

/-- One entry of `newPredictions` (lines 432-447).  `failureProbability`
is the displayed `(riskLevel * 100).toFixed(1)` value. -/
structure Prediction where
  equipmentId : String
  failureProbability : ℚ
  riskLevel : RiskLevel
  daysUntilMaintenance : ℤ
  recommendedAction : String
  sensors : PredictionSensors
  lastUpdated : ℤ
deriving DecidableEq, Repr

/-- The prediction record pushed for one equipment unit in
`generateMLPredictions` (lines 428-447), as a function of the classifier
output `riskLevel` and the latest synthesized reading. -/
def mkPrediction (now : ℤ) (equipmentId : String) (riskLevel : ℚ)
    (latestReading : Reading) : Prediction :=
  { equipmentId := equipmentId
    failureProbability := roundDec 1 (riskLevel * 100)
    riskLevel := riskLevelOf riskLevel
    daysUntilMaintenance := max 1 ⌊(1 - riskLevel) * 30⌋
    recommendedAction :=
      if riskLevel > 7 / 10 then "Schedule immediate maintenance"
      else if riskLevel > 2 / 5 then "Plan maintenance within 2 weeks"
      else "Continue normal operations"
    sensors :=
      { temperature := latestReading.temperature
        vibration := latestReading.vibration
        pressure := latestReading.pressure
        current := latestReading.current }
    lastUpdated := now }

/-- The fixed roster `currentEquipment` of `generateMLPredictions` (line 405). -/
def currentEquipment : List String :=
  ["GEN-234", "PMP-156", "COM-789", "MIX-445", "GEN-567"]

/-- `generateMLPredictions(trainedModel)` (lines 401-458): on an absent
(untrained) classifier the guard `if (!trainedModel) return;` yields no
predictions; otherwise one prediction per roster id, classifying the last of
the 24 readings synthesized with `days = 1`.  Each per-equipment call of
`generateSensorData` consumes fresh randomness, hence the per-id environment
family `envs`.  `getD` supplies an (unreachable) default for
`recentData[recentData.length - 1]`: `recentData` always has 24 entries. -/
def generateMLPredictions (envs : String → Env) (trainedModel : Option MLModel)
    (ids : List String) : List Prediction :=
  match trainedModel with
  | none => []
  | some m =>
      ids.map (fun equipmentId =>
        let env := envs equipmentId
        let recentData := generateSensorData env equipmentId 1
        let latestReading := recentData.getLast?.getD (mkReading env equipmentId 1 0)
        let riskLevel := m.predict (predictionFeatures env latestReading)
        mkPrediction env.now equipmentId riskLevel latestReading)

/-! ## Mock prediction service (`getMockMLPredictions`) -/

/-- One mock prediction (mock data service, lines 395-421).  Display-only
string fields built with `toFixed` are carried as the rounded numbers. -/
structure MockPrediction where
  equipmentId : String
  failureProbability : ℚ
  riskLevel : RiskLevel
  daysUntilMaintenance : ℤ
  recommendedAction : String
  confidence : ℚ
deriving DecidableEq, Repr

/-- The record built for one id inside `getMockMLPredictions`, as a function
of its two `Math.random()` samples (`u 0` drives `failureProbability =
Math.random() * 100`, `u 1` the confidence). -/
def mkMockPrediction (equipmentId : String) (u : ℕ → ℚ) : MockPrediction :=
  let failureProbability := u 0 * 100
  let riskLevel := mockRiskLevelOf failureProbability
  { equipmentId := equipmentId
    failureProbability := roundDec 1 failureProbability
    riskLevel := riskLevel
    daysUntilMaintenance := max 1 ⌊(100 - failureProbability) / 3⌋
    recommendedAction :=
      if riskLevel = .high then "Schedule immediate maintenance"
      else if riskLevel = .medium then "Plan maintenance within 2 weeks"
      else "Continue normal operations"
    confidence := roundDec 1 (85 + u 1 * 15) }

/-- `getMockMLPredictions(equipmentIds)` (mock data service, lines 395-421):
one mock prediction per id, each from its own sample stream. -/
def getMockMLPredictions (us : String → ℕ → ℚ) (equipmentIds : List String) :
    List MockPrediction :=
  equipmentIds.map (fun equipmentId => mkMockPrediction equipmentId (us equipmentId))

/-! ## Classifier training state machine (`trainPredictiveModel`) -/

/-- The React state touched by `trainPredictiveModel` (lines 201-210):
the model slot, the training flag/progress, and the prediction list. -/
structure MLState where
  mlModel : Option MLModel
  isTraining : Bool
  trainingProgress : ℚ
  mlPredictions : List Prediction

/-- Outcome of everything inside the `try` block up to and including
`model.fit`: either a trained model together with the final validation
accuracy read off the history, or the thrown error's message. -/
inductive FitOutcome where
  | ok (model : MLModel) (finalAccuracy : ℚ)
  | error (message : String)

/-- `trainPredictiveModel` (lines 297-398), as a state transformer.  The
`try` block ends with `setMlModel(model)` and `generateMLPredictions(model)`;
the `catch` block only logs and raises `alert('Training failed: ' + message)`
— it does NOT touch the model slot; the `finally` block resets
`isTraining` and `trainingProgress`.  The second component is the alert
message shown on failure. -/
def trainPredictiveModel (envs : String → Env) (st : MLState) (outcome : FitOutcome) :
    MLState × Option String :=
  match outcome with
  | .ok model _finalAccuracy =>
      ({ mlModel := some model
         isTraining := false
         trainingProgress := 0
         mlPredictions := generateMLPredictions envs (some model) currentEquipment },
       none)
  | .error message =>
      ({ st with isTraining := false, trainingProgress := 0 },
       some ("Training failed: " ++ message))

/-! ## Root-cause diagnosis (`analyzeRootCause`) -/

/-- Severity tier of a diagnostic issue. -/
inductive Severity where
  | critical
  | warning
  | info
deriving DecidableEq, Repr, BEq

/-- Display rank of a severity: critical before warning before info. -/
def sevRank : Severity → ℕ
  | .critical => 0
  | .warning => 1
  | .info => 2

/-- One diagnostic issue as pushed by `analyzeRootCause` (lines 47-191).
The `current` display string (the observed value with its unit) is derived
from the same numeric channel and omitted here as pure presentation. -/
structure Issue where
  type : Severity
  sensor : String
  threshold : String
  status : String
  impact : String
  icon : String
  color : String
deriving DecidableEq, Repr

/-- The `mlPrediction.sensors` snapshot read by `analyzeRootCause`;
`parseFloat` of the stored channel values is the identity on the numbers
they encode. -/
structure Sensors where
  temperature : ℚ
  vibration : ℚ
  pressure : ℚ
  current : ℚ
deriving DecidableEq, Repr

/-- The slice of the attached `mlPrediction` object that `analyzeRootCause`
reads: only its optional `sensors` field. -/
structure EquipmentML where
  sensors : Option Sensors
deriving DecidableEq, Repr

/-- The equipment record as consumed by `analyzeRootCause`: the optional
attached prediction, the status string, uptime percentage, operating hours. -/
structure Equipment where
  mlPrediction : Option EquipmentML
  status : String
  uptime : ℚ
  operatingHours : ℚ
deriving DecidableEq, Repr

/-- The `equipment.mlPrediction?.sensors` optional-chaining access. -/
def sensorsOf (e : Equipment) : Option Sensors := e.mlPrediction.bind EquipmentML.sensors

/-- Temperature rule (lines 55-78): critical above 95, else warning above 85. -/
def tempIssues (s : Sensors) : List Issue :=
  if s.temperature > 95 then
    [{ type := .critical, sensor := "Temperature", threshold := "95°F",
       status := "CRITICAL - Overheating detected",
       impact := "Engine damage risk, immediate shutdown recommended",
       icon := "🌡️", color := "text-red-600 bg-red-50 border-red-200" }]
  else if s.temperature > 85 then
    [{ type := .warning, sensor := "Temperature", threshold := "85°F",
       status := "HIGH - Above normal range",
       impact := "Reduced efficiency, maintenance required",
       icon := "🌡️", color := "text-yellow-600 bg-yellow-50 border-yellow-200" }]
  else []

/-- Vibration rule (lines 81-104): critical above 2.0, else warning above 1.5. -/
def vibIssues (s : Sensors) : List Issue :=
  if s.vibration > 2 then
    [{ type := .critical, sensor := "Vibration", threshold := "2.0g",
       status := "CRITICAL - Excessive vibration",
       impact := "Mechanical failure imminent, stop operation",
       icon := "📳", color := "text-red-600 bg-red-50 border-red-200" }]
  else if s.vibration > 3 / 2 then
    [{ type := .warning, sensor := "Vibration", threshold := "1.5g",
       status := "HIGH - Unusual vibration levels",
       impact := "Bearing or alignment issues, inspect soon",
       icon := "📳", color := "text-yellow-600 bg-yellow-50 border-yellow-200" }]
  else []

/-- Pressure rule (lines 107-119): one issue when out of the 80-180 band,
critical above 180 and warning below 80. -/
def pressureIssues (s : Sensors) : List Issue :=
  if s.pressure > 180 ∨ s.pressure < 80 then
    [{ type := if s.pressure > 180 then .critical else .warning,
       sensor := "Pressure", threshold := "80-180 PSI",
       status := if s.pressure > 180 then "CRITICAL - Pressure too high"
                 else "LOW - Pressure below minimum",
       impact := if s.pressure > 180 then "System damage risk, reduce load"
                 else "Performance degradation, check filters",
       icon := "🔘",
       color := if s.pressure > 180 then "text-red-600 bg-red-50 border-red-200"
                else "text-yellow-600 bg-yellow-50 border-yellow-200" }]
  else []

/-- Current rule (lines 122-134): warning above 25 A. -/
def currentIssues (s : Sensors) : List Issue :=
  if s.current > 25 then
    [{ type := .warning, sensor := "Current", threshold := "25A",
       status := "HIGH - Electrical overload",
       impact := "Motor strain, check electrical connections",
       icon := "⚡", color := "text-yellow-600 bg-yellow-50 border-yellow-200" }]
  else []

/-- Equipment status rule (lines 138-160): critical status, else-if
maintenance status. -/
def statusIssues (e : Equipment) : List Issue :=
  if e.status = "critical" then
    [{ type := .critical, sensor := "System Status", threshold := "OPERATIONAL",
       status := "CRITICAL - Equipment malfunction",
       impact := "Immediate attention required, safety risk",
       icon := "⚠️", color := "text-red-600 bg-red-50 border-red-200" }]
  else if e.status = "maintenance" then
    [{ type := .warning, sensor := "Maintenance Schedule", threshold := "CURRENT",
       status := "Scheduled maintenance overdue",
       impact := "Performance degradation, reliability risk",
       icon := "🔧", color := "text-yellow-600 bg-yellow-50 border-yellow-200" }]
  else []

/-- Uptime rule (lines 163-174): warning below 85%. -/
def uptimeIssues (e : Equipment) : List Issue :=
  if e.uptime < 85 then
    [{ type := .warning, sensor := "Uptime", threshold := "85%",
       status := "LOW - Poor reliability",
       impact := "Frequent breakdowns affecting productivity",
       icon := "📊", color := "text-yellow-600 bg-yellow-50 border-yellow-200" }]
  else []

/-- Operating-hours rule (lines 177-188): info above 4000 h. -/
def hoursIssues (e : Equipment) : List Issue :=
  if e.operatingHours > 4000 then
    [{ type := .info, sensor := "Operating Hours", threshold := "4000h",
       status := "HIGH - Major service interval approaching",
       impact := "Plan for comprehensive maintenance",
       icon := "🕐", color := "text-blue-600 bg-blue-50 border-blue-200" }]
  else []

/-- `analyzeRootCause(equipment)` (lines 47-191): the issues pushed, in
program order — the four sensor rules (only when
`equipment.mlPrediction?.sensors` is present), then status, uptime, and
operating-hours rules. -/
def analyzeRootCause (e : Equipment) : List Issue :=
  (match sensorsOf e with
   | some s => tempIssues s ++ vibIssues s ++ pressureIssues s ++ currentIssues s
   | none => []) ++ statusIssues e ++ uptimeIssues e ++ hoursIssues e

/-- Number of issues of a diagnosis satisfying a predicate. -/
def countP (e : Equipment) (p : Issue → Bool) : ℕ :=
  ((analyzeRootCause e).filter p).length

/-- Number of issues for a given sensor channel in a diagnosis. -/
def countIssues (e : Equipment) (name : String) : ℕ :=
  countP e (fun i => i.sensor == name)

/-- Number of issues for a given sensor channel and severity. -/
def countSev (e : Equipment) (name : String) (sev : Severity) : ℕ :=
  countP e (fun i => i.sensor == name && i.type == sev)

/-- A sequence of issues is sorted by severity when the display ranks are
non-decreasing along it (all critical before all warning before all info). -/
def SortedBySeverity (issues : List Issue) : Prop :=
  ((issues.map (fun i => sevRank i.type)).Chain' (· ≤ ·))

/-! ## Helper lemmas -/

/-- Indexing the synthesized series hits the loop body at the same index. -/
lemma generateSensorData_get? (env : Env) (equipmentId : String) (days i : ℕ)
    (h : i < days * 24) :
    (generateSensorData env equipmentId days).get? i
      = some (mkReading env equipmentId days i) := by
  simp [generateSensorData, List.getElem?_map, List.getElem?_range, h]

/-- The synthesized series has one reading per loop index. -/
lemma generateSensorData_length (env : Env) (equipmentId : String) (days : ℕ) :
    (generateSensorData env equipmentId days).length = days * 24 := by
  simp [generateSensorData]

/-- Rounding at 3 decimals keeps a value of `[0, 1]` inside `[0, 1]`. -/
lemma roundDec_three_mem (x : ℚ) (h0 : 0 ≤ x) (h1 : x ≤ 1) :
    0 ≤ roundDec 3 x ∧ roundDec 3 x ≤ 1 := by
  unfold roundDec
  constructor
  · have : (0 : ℤ) ≤ ⌊x * 10 ^ 3 + 1 / 2⌋ := Int.le_floor.mpr (by push_cast; nlinarith)
    positivity
  · rw [div_le_one (by norm_num)]
    have : ⌊x * 10 ^ 3 + 1 / 2⌋ ≤ 10 ^ 3 := by
      rw [Int.floor_le_iff]
      push_cast
      nlinarith
    exact_mod_cast this

/-- The pre-rounding failure risk is always in `[0, 1]`. -/
lemma failureRiskOf_mem (t v p : ℚ) :
    0 ≤ failureRiskOf t v p ∧ failureRiskOf t v p ≤ 1 := by
  unfold failureRiskOf tempScoreOf vibrationScoreOf pressureScoreOf
  constructor
  · apply le_min (by norm_num)
    have h1 : (0 : ℚ) ≤ max 0 ((t - 90) / 20) := le_max_left _ _
    have h2 : (0 : ℚ) ≤ max 0 ((v - 2) / 1) := le_max_left _ _
    have h3 : (0 : ℚ) ≤ max 0 (|p - 125| / 25) := le_max_left _ _
    linarith
  · exact min_le_left _ _

/-- Every temperature issue is labelled `"Temperature"`. -/
lemma tempIssues_label (s : Sensors) : ∀ i ∈ tempIssues s, i.sensor = "Temperature" := by
  intro i hi
  unfold tempIssues at hi
  split at hi
  · simp at hi; simp [hi]
  · split at hi
    · simp at hi; simp [hi]
    · simp at hi

/-- Every vibration issue is labelled `"Vibration"`. -/
lemma vibIssues_label (s : Sensors) : ∀ i ∈ vibIssues s, i.sensor = "Vibration" := by
  intro i hi
  unfold vibIssues at hi
  split at hi
  · simp at hi; simp [hi]
  · split at hi
    · simp at hi; simp [hi]
    · simp at hi

/-- Every pressure issue is labelled `"Pressure"`. -/
lemma pressureIssues_label (s : Sensors) : ∀ i ∈ pressureIssues s, i.sensor = "Pressure" := by
  intro i hi
  unfold pressureIssues at hi
  split at hi
  · simp at hi; simp [hi]
  · simp at hi

/-- Every current issue is labelled `"Current"`. -/
lemma currentIssues_label (s : Sensors) : ∀ i ∈ currentIssues s, i.sensor = "Current" := by
  intro i hi
  unfold currentIssues at hi
  split at hi
  · simp at hi; simp [hi]
  · simp at hi

/-- Every status issue is labelled `"System Status"` or `"Maintenance Schedule"`. -/
lemma statusIssues_label (e : Equipment) :
    ∀ i ∈ statusIssues e, i.sensor = "System Status" ∨ i.sensor = "Maintenance Schedule" := by
  intro i hi
  unfold statusIssues at hi
  split at hi
  · simp at hi; simp [hi]
  · split at hi
    · simp at hi; simp [hi]
    · simp at hi

/-- Every uptime issue is labelled `"Uptime"`. -/
lemma uptimeIssues_label (e : Equipment) : ∀ i ∈ uptimeIssues e, i.sensor = "Uptime" := by
  intro i hi
  unfold uptimeIssues at hi
  split at hi
  · simp at hi; simp [hi]
  · simp at hi

/-- Every operating-hours issue is labelled `"Operating Hours"`. -/
lemma hoursIssues_label (e : Equipment) : ∀ i ∈ hoursIssues e, i.sensor = "Operating Hours" := by
  intro i hi
  unfold hoursIssues at hi
  split at hi
  · simp at hi; simp [hi]
  · simp at hi

/-- A filter whose predicate rejects every label occurring in a rule's
output is empty on that output. -/
lemma filter_eq_nil_of_labels (l : List Issue) (p : Issue → Bool)
    (h : ∀ i ∈ l, p i = false) : l.filter p = [] :=
  List.filter_eq_nil_iff.mpr (fun i hi => by simp [h i hi])

/-- With sensors attached, the diagnosis is the concatenation of the four
sensor rules and the three equipment rules, in program order. -/
lemma analyzeRootCause_eq_of_sensors (e : Equipment) (s : Sensors)
    (h : sensorsOf e = some s) :
    analyzeRootCause e = tempIssues s ++ vibIssues s ++ pressureIssues s
      ++ currentIssues s ++ statusIssues e ++ uptimeIssues e ++ hoursIssues e := by
  simp [analyzeRootCause, h, List.append_assoc]

/-- Without sensors, only the three equipment rules contribute. -/
lemma analyzeRootCause_eq_of_no_sensors (e : Equipment)
    (h : sensorsOf e = none) :
    analyzeRootCause e = statusIssues e ++ uptimeIssues e ++ hoursIssues e := by
  simp [analyzeRootCause, h, List.append_assoc]

/-- Length bound: the status rule emits at most one issue. -/
lemma statusIssues_length (e : Equipment) : (statusIssues e).length ≤ 1 := by
  unfold statusIssues; split
  · simp
  · split <;> simp

/-- Length bound: the uptime rule emits at most one issue. -/
lemma uptimeIssues_length (e : Equipment) : (uptimeIssues e).length ≤ 1 := by
  unfold uptimeIssues; split <;> simp

/-- Length bound: the operating-hours rule emits at most one issue. -/
lemma hoursIssues_length (e : Equipment) : (hoursIssues e).length ≤ 1 := by
  unfold hoursIssues; split <;> simp

/-! ## Claim theorems -/

/-- A fixed benign environment for concrete witness evaluations: every
`Math.random()` sample is 0 and the runtime trigonometric values are the
exact ones at argument 0. -/
def witEnv : Env :=
  { rand := fun _ => 0
    sinq := fun _ => 0
    cosq := fun _ => 1
    sinHour := fun _ => 0
    cosHour := fun _ => 0
    getHours := fun _ => 0
    now := 0 }

/-- Claim C5: for every equipment id and every `days ≥ 0`,
`generateSensorData` returns exactly `days*24` readings in oldest-first
hourly cadence — the reading at index `i` has timestamp
`now - (days*24 - i)` hours — and for `days = 0` the result is empty
(no error is raised: the function is total). -/
theorem generateSensorData_length_cadence (env : Env) (equipmentId : String) (days : ℕ) :
    (generateSensorData env equipmentId days).length = days * 24
    ∧ (∀ i : ℕ, i < days * 24 →
        ((generateSensorData env equipmentId days).get? i).map Reading.timestamp
          = some (env.now - ((days : ℤ) * 24 - (i : ℤ)) * 3600000))
    ∧ (days = 0 → generateSensorData env equipmentId days = []) := by
  refine ⟨generateSensorData_length env equipmentId days, ?_, ?_⟩
  · intro i hi
    rw [generateSensorData_get? env equipmentId days i hi]
    simp [mkReading]
  · intro h
    subst h
    rfl

/-- Witness for C5 at a concrete input: 2 days give 48 hourly readings and
the reading at index 5 is stamped 43 hours before `now`. -/
theorem generateSensorData_length_cadence_witness :
    (generateSensorData witEnv "GEN-001" 2).length = 48
    ∧ ((generateSensorData witEnv "GEN-001" 2).get? 5).map Reading.timestamp
        = some (-(43 * 3600000 : ℤ)) := by
  obtain ⟨h1, h2, _⟩ := generateSensorData_length_cadence witEnv "GEN-001" 2
  refine ⟨by rw [h1], ?_⟩
  rw [h2 5 (by norm_num)]
  norm_num [witEnv]

/-- Claim C6: the feature preparation in `prepareMLData` and the inline
feature row in `generateMLPredictions` both produce exactly the spec's
7-entry `toFeatureVector`, in the fixed order and with the exact
normalization divisors; in this rational-valued embedding every entry is
finite by construction. -/
theorem toFeatureVector_fixed_contract (env : Env) (r : Reading) :
    (toFeatureVector env r).length = 7
    ∧ toFeatureVector env r =
        [r.temperature / 100, r.vibration / 3, r.pressure / 200, r.current / 30,
         env.sinHour (env.getHours r.timestamp), env.cosHour (env.getHours r.timestamp),
         r.operatingHours / 10000]
    ∧ predictionFeatures env r = toFeatureVector env r
    ∧ (∀ rawData : List Reading,
        (prepareMLData env rawData).1 = rawData.map (toFeatureVector env)
        ∧ (prepareMLData env rawData).2 = rawData.map Reading.maintenance_needed) :=
  ⟨rfl, rfl, rfl, fun _ => ⟨rfl, rfl⟩⟩

/-- Claim C8: with an absent/untrained classifier the prediction generator
returns the empty sequence for every equipment id list — the guard
`if (!trainedModel) return;` fires before any per-equipment work, and the
function is total (never throws). -/
theorem generateMLPredictions_untrained_empty (envs : String → Env) (ids : List String) :
    generateMLPredictions envs none ids = [] := rfl

/-- Claim C3: risk-tier assignment is a monotonic step function of failure
probability with boundaries exactly at 40 and 70 on the percentage scale
(high iff `p > 70`, medium iff `40 < p ≤ 70`, low otherwise); the unit-scale
tier used by `generateMLPredictions` (`mkPrediction`) agrees with the
percentage-scale tier of `getMockMLPredictions` (`mkMockPrediction`) under
`p ↦ 100*p`. -/
theorem risk_tier_monotone_step_function (p q : ℚ) (hpq : p < q) :
    tierRank (mockRiskLevelOf p) ≤ tierRank (mockRiskLevelOf q)
    ∧ (∀ x : ℚ, (mockRiskLevelOf x = .high ↔ 70 < x)
        ∧ (mockRiskLevelOf x = .medium ↔ 40 < x ∧ x ≤ 70)
        ∧ (mockRiskLevelOf x = .low ↔ x ≤ 40))
    ∧ (∀ x : ℚ, riskLevelOf x = mockRiskLevelOf (100 * x))
    ∧ (∀ (now : ℤ) (equipmentId : String) (x : ℚ) (r : Reading),
        (mkPrediction now equipmentId x r).riskLevel = riskLevelOf x)
    ∧ (∀ (equipmentId : String) (u : ℕ → ℚ),
        (mkMockPrediction equipmentId u).riskLevel = mockRiskLevelOf (u 0 * 100)) := by
  refine ⟨?_, ?_, ?_, fun _ _ _ _ => rfl, fun _ _ => rfl⟩
  · unfold mockRiskLevelOf
    split_ifs <;> simp [tierRank] <;> linarith
  · intro x
    unfold mockRiskLevelOf
    split_ifs with h1 h2 <;>
      refine ⟨?_, ?_, ?_⟩ <;> simp <;>
        first | linarith | (intro; linarith) | (constructor <;> linarith)
  · intro x
    unfold riskLevelOf mockRiskLevelOf
    have h7 : 100 * x > 70 ↔ x > 7 / 10 := by constructor <;> intro <;> linarith
    have h4 : 100 * x > 40 ↔ x > 2 / 5 := by constructor <;> intro <;> linarith
    simp only [h7, h4]

/-- Witness for C3 at concrete probabilities 30 and 80 (percentage scale)
and 1/2 (unit scale). -/
theorem risk_tier_monotone_step_function_witness :
    tierRank (mockRiskLevelOf 30) ≤ tierRank (mockRiskLevelOf 80)
    ∧ riskLevelOf (1 / 2) = mockRiskLevelOf (100 * (1 / 2)) := by
  obtain ⟨h1, _, h3, _, _⟩ := risk_tier_monotone_step_function 30 80 (by norm_num)
  exact ⟨h1, h3 (1 / 2)⟩

/-- A concrete sensor reading used by witnesses. -/
def witReading : Reading :=
  { equipmentId := "GEN-001", timestamp := 0, temperature := 80, vibration := 1,
    pressure := 125, current := 10, operatingHours := 100, failureRisk := 0,
    maintenance_needed := 0 }

/-- Claim C4: for failure probabilities in `[0,1]`, the prediction
generator's `daysUntilMaintenance` equals `max(1, floor((1-p)*30))`; it is
an integer that is always at least 1 and is antitone in the probability. -/
theorem daysUntilMaintenance_formula_antitone (now : ℤ) (equipmentId : String)
    (r : Reading) (p q : ℚ) (h0 : 0 ≤ p) (hpq : p ≤ q) (h1 : q ≤ 1) :
    (mkPrediction now equipmentId p r).daysUntilMaintenance = max 1 ⌊(1 - p) * 30⌋
    ∧ 1 ≤ (mkPrediction now equipmentId p r).daysUntilMaintenance
    ∧ (mkPrediction now equipmentId q r).daysUntilMaintenance
        ≤ (mkPrediction now equipmentId p r).daysUntilMaintenance := by
  refine ⟨rfl, le_max_left _ _, ?_⟩
  simp only [mkPrediction]
  exact max_le_max le_rfl (Int.floor_le_floor (by nlinarith))

/-- Witness for C4 at probabilities 1/10 and 9/10 on a concrete reading. -/
theorem daysUntilMaintenance_formula_antitone_witness :
    1 ≤ (mkPrediction 0 "GEN-001" (1 / 10) witReading).daysUntilMaintenance
    ∧ (mkPrediction 0 "GEN-001" (9 / 10) witReading).daysUntilMaintenance
        ≤ (mkPrediction 0 "GEN-001" (1 / 10) witReading).daysUntilMaintenance := by
  obtain ⟨_, h2, h3⟩ := daysUntilMaintenance_formula_antitone 0 "GEN-001" witReading
    (1 / 10) (9 / 10) (by norm_num) (by norm_num) (by norm_num)
  exact ⟨h2, h3⟩

/-- The previously trained classifier retained across a failed re-training
run (the counterexample to the claim that failure reverts to Untrained). -/
def prevModel : MLModel := { predict := fun _ => 1 / 2 }

/-- An `MLState` holding a previously trained model. -/
def trainedState : MLState :=
  { mlModel := some prevModel, isTraining := false, trainingProgress := 0,
    mlPredictions := [] }

/-- An `MLState` that has never completed a training run. -/
def untrainedState : MLState :=
  { mlModel := none, isTraining := false, trainingProgress := 0,
    mlPredictions := [] }

/-- Counterexample to claim C9 as stated: when training fails while a
previously trained model occupies the slot, the slot keeps that previous
model — the state does NOT revert to Untrained (`catch` only logs and
alerts; it never clears `mlModel`). -/
theorem training_failure_keeps_previous_model :
    (trainPredictiveModel (fun _ => witEnv) trainedState
        (.error "GPU memory exhausted")).1.mlModel = some prevModel
    ∧ some prevModel ≠ (none : Option MLModel) :=
  ⟨rfl, by simp⟩

/-- Claim C9 as amended: an exception during the fit procedure leaves the
model slot exactly as it was before the run — in particular no partial or
corrupt model from the failed run is retained, and a classifier that was
Untrained stays Untrained — and the descriptive message
`Training failed: <error>` is surfaced to the caller via `alert`. -/
theorem trainPredictiveModel_failure_spec (envs : String → Env) (st : MLState)
    (message : String) :
    (trainPredictiveModel envs st (.error message)).1.mlModel = st.mlModel
    ∧ (trainPredictiveModel envs st (.error message)).2
        = some ("Training failed: " ++ message)
    ∧ (trainPredictiveModel envs st (.error message)).1.isTraining = false
    ∧ (trainPredictiveModel envs st (.error message)).1.trainingProgress = 0
    ∧ (st.mlModel = none → (trainPredictiveModel envs st (.error message)).1.mlModel = none) :=
  ⟨rfl, rfl, rfl, rfl, fun h => h ▸ rfl⟩

/-- Witness for C9 (amended) on a concrete untrained state and error. -/
theorem trainPredictiveModel_failure_spec_witness :
    (trainPredictiveModel (fun _ => witEnv) untrainedState (.error "boom")).1.mlModel = none
    ∧ (trainPredictiveModel (fun _ => witEnv) untrainedState (.error "boom")).2
        = some ("Training failed: " ++ "boom") := by
  obtain ⟨_, h2, _, _, h5⟩ :=
    trainPredictiveModel_failure_spec (fun _ => witEnv) untrainedState "boom"
  exact ⟨h5 rfl, h2⟩

/-- Claim C10: when `equipment.mlPrediction` (or its `sensors` field) is
absent, the diagnosis contains no sensor-channel issue — only the System
Status, Maintenance Schedule, Uptime, and Operating Hours rules can fire —
so it has at most 4 issues, and the function returns normally (it is total). -/
theorem diagnose_without_sensors (e : Equipment) (h : sensorsOf e = none) :
    (∀ i ∈ analyzeRootCause e,
      i.sensor = "System Status" ∨ i.sensor = "Maintenance Schedule"
        ∨ i.sensor = "Uptime" ∨ i.sensor = "Operating Hours")
    ∧ (analyzeRootCause e).length ≤ 4 := by
  rw [analyzeRootCause_eq_of_no_sensors e h]
  constructor
  · intro i hi
    rcases List.mem_append.mp hi with hi' | hi'
    · rcases List.mem_append.mp hi' with hi'' | hi''
      · rcases statusIssues_label e i hi'' with h' | h'
        · exact Or.inl h'
        · exact Or.inr (Or.inl h')
      · exact Or.inr (Or.inr (Or.inl (uptimeIssues_label e i hi'')))
    · exact Or.inr (Or.inr (Or.inr (hoursIssues_label e i hi')))
  · have h1 := statusIssues_length e
    have h2 := uptimeIssues_length e
    have h3 := hoursIssues_length e
    simp only [List.length_append]
    omega

/-- A concrete equipment record with no attached prediction. -/
def witEquipmentNoML : Equipment :=
  { mlPrediction := none, status := "critical", uptime := 50, operatingHours := 5000 }

/-- Witness for C10 on a concrete equipment record without predictions. -/
theorem diagnose_without_sensors_witness :
    sensorsOf witEquipmentNoML = none
    ∧ (analyzeRootCause witEquipmentNoML).length ≤ 4 :=
  ⟨rfl, (diagnose_without_sensors witEquipmentNoML rfl).2⟩

/-- Claim C1 as amended: for every generated reading, the STORED
`failureRisk` is the clamped average of the three channel excess scores
rounded to three decimals (the `toFixed(3)` storage step); it lies in
`[0, 1]`; and `maintenance_needed = 1` iff the pre-rounding clamped
average exceeds 0.7. -/
theorem generated_reading_risk_spec (env : Env) (equipmentId : String) (days i : ℕ)
    (r : Reading) (h : (generateSensorData env equipmentId days).get? i = some r) :
    r.failureRisk = roundDec 3
        (failureRiskOf (rawTemperature env i) (rawVibration env i) (rawPressure env i))
    ∧ 0 ≤ r.failureRisk ∧ r.failureRisk ≤ 1
    ∧ (r.maintenance_needed = 1 ↔
        7 / 10 < failureRiskOf (rawTemperature env i) (rawVibration env i) (rawPressure env i)) := by
  have hi : i < days * 24 := by
    by_contra hge
    rw [List.get?_eq_none.mpr] at h
    · exact Option.noConfusion h
    · rw [generateSensorData_length]
      omega
  have hr : r = mkReading env equipmentId days i := by
    have := generateSensorData_get? env equipmentId days i hi
    rw [h] at this
    exact Option.some_inj.mp this
  subst hr
  obtain ⟨hm0, hm1⟩ := failureRiskOf_mem (rawTemperature env i) (rawVibration env i)
    (rawPressure env i)
  obtain ⟨hb0, hb1⟩ := roundDec_three_mem _ hm0 hm1
  refine ⟨rfl, hb0, hb1, ?_⟩
  simp only [mkReading]
  split
  · next hgt => simpa using hgt
  · next hle => simpa using hle

/-- Witness for C1 (amended) at a concrete environment and index 0. -/
theorem generated_reading_risk_spec_witness :
    (generateSensorData witEnv "GEN-001" 1).get? 0 = some (mkReading witEnv "GEN-001" 1 0)
    ∧ 0 ≤ (mkReading witEnv "GEN-001" 1 0).failureRisk
    ∧ (mkReading witEnv "GEN-001" 1 0).failureRisk ≤ 1 := by
  have hget : (generateSensorData witEnv "GEN-001" 1).get? 0
      = some (mkReading witEnv "GEN-001" 1 0) :=
    generateSensorData_get? witEnv "GEN-001" 1 0 (by norm_num)
  obtain ⟨_, h2, h3, _⟩ := generated_reading_risk_spec witEnv "GEN-001" 1 0 _ hget
  exact ⟨hget, h2, h3⟩

/-- The concrete environment of the C1 counterexample.  All samples are in
`[0, 1)` (admissible for `Math.random()`), and the runtime trigonometric
functions are only evaluated at argument 0 in the index-0 reading, where
`sin 0 = 0` and `cos 0 = 1` exactly — the values this environment returns.
It drives the index-0 raw channels to temperature 95, vibration 2,
pressure 125, all exactly representable at their storage precision, with
clamped average risk `(1/4 + 0 + 0)/3 = 1/12`, which has no finite decimal
representation. -/
def cexEnv : Env :=
  { rand := fun k =>
      if k = 0 then 9 / 10
      else if k = 1 then 99 / 100
      else if k = 2 then 3 / 10
      else if k = 3 then 2 / 3
      else if k = 4 then 3 / 20
      else 0
    sinq := fun _ => 0
    cosq := fun _ => 1
    sinHour := fun _ => 0
    cosHour := fun _ => 0
    getHours := fun _ => 0
    now := 0 }

/-- Counterexample to claim C1 as stated: in an admissible run, the reading
at index 0 stores `failureRisk = 0.083` while the clamped average of its
three channel excess scores is `1/12 = 0.08333…` — the stored value is the
3-decimal rounding, not the average itself. -/
theorem stored_failureRisk_differs_from_clamped_average :
    cexEnv.Admissible
    ∧ (generateSensorData cexEnv "GEN-001" 1).get? 0
        = some (mkReading cexEnv "GEN-001" 1 0)
    ∧ (mkReading cexEnv "GEN-001" 1 0).temperature = 95
    ∧ (mkReading cexEnv "GEN-001" 1 0).vibration = 2
    ∧ (mkReading cexEnv "GEN-001" 1 0).pressure = 125
    ∧ (mkReading cexEnv "GEN-001" 1 0).failureRisk = 83 / 1000
    ∧ failureRiskOf 95 2 125 = 1 / 12
    ∧ (mkReading cexEnv "GEN-001" 1 0).failureRisk ≠ failureRiskOf 95 2 125 := by
  refine ⟨?_, generateSensorData_get? cexEnv "GEN-001" 1 0 (by norm_num), ?_, ?_, ?_, ?_, ?_, ?_⟩
  · intro k
    simp only [cexEnv]
    split_ifs <;> norm_num
  · norm_num [mkReading, rawTemperature, baseTemp, cexEnv, roundDec]
  · norm_num [mkReading, rawVibration, baseVibration, cexEnv, roundDec]
  · norm_num [mkReading, rawPressure, basePressure, cexEnv, roundDec]
  · norm_num [mkReading, failureRiskOf, tempScoreOf, vibrationScoreOf, pressureScoreOf,
      rawTemperature, rawVibration, rawPressure, baseTemp, baseVibration, basePressure,
      cexEnv, roundDec]
  · norm_num [failureRiskOf, tempScoreOf, vibrationScoreOf, pressureScoreOf]
  · norm_num [mkReading, failureRiskOf, tempScoreOf, vibrationScoreOf, pressureScoreOf,
      rawTemperature, rawVibration, rawPressure, baseTemp, baseVibration, basePressure,
      cexEnv, roundDec]

/-- Filtering a temperature rule's output with a predicate that rejects the
`"Temperature"` label yields nothing. -/
lemma tempIssues_filter_nil (s : Sensors) (p : Issue → Bool)
    (hp : ∀ i, i.sensor = "Temperature" → p i = false) : (tempIssues s).filter p = [] :=
  filter_eq_nil_of_labels _ _ (fun i hi => hp i (tempIssues_label s i hi))

/-- Filtering a vibration rule's output with a predicate that rejects the
`"Vibration"` label yields nothing. -/
lemma vibIssues_filter_nil (s : Sensors) (p : Issue → Bool)
    (hp : ∀ i, i.sensor = "Vibration" → p i = false) : (vibIssues s).filter p = [] :=
  filter_eq_nil_of_labels _ _ (fun i hi => hp i (vibIssues_label s i hi))

/-- Filtering a pressure rule's output with a predicate that rejects the
`"Pressure"` label yields nothing. -/
lemma pressureIssues_filter_nil (s : Sensors) (p : Issue → Bool)
    (hp : ∀ i, i.sensor = "Pressure" → p i = false) : (pressureIssues s).filter p = [] :=
  filter_eq_nil_of_labels _ _ (fun i hi => hp i (pressureIssues_label s i hi))

/-- Filtering a current rule's output with a predicate that rejects the
`"Current"` label yields nothing. -/
lemma currentIssues_filter_nil (s : Sensors) (p : Issue → Bool)
    (hp : ∀ i, i.sensor = "Current" → p i = false) : (currentIssues s).filter p = [] :=
  filter_eq_nil_of_labels _ _ (fun i hi => hp i (currentIssues_label s i hi))

/-- Filtering a status rule's output with a predicate that rejects both its
labels yields nothing. -/
lemma statusIssues_filter_nil (e : Equipment) (p : Issue → Bool)
    (hp : ∀ i, i.sensor = "System Status" ∨ i.sensor = "Maintenance Schedule" → p i = false) :
    (statusIssues e).filter p = [] :=
  filter_eq_nil_of_labels _ _ (fun i hi => hp i (statusIssues_label e i hi))

/-- Filtering an uptime rule's output with a predicate that rejects the
`"Uptime"` label yields nothing. -/
lemma uptimeIssues_filter_nil (e : Equipment) (p : Issue → Bool)
    (hp : ∀ i, i.sensor = "Uptime" → p i = false) : (uptimeIssues e).filter p = [] :=
  filter_eq_nil_of_labels _ _ (fun i hi => hp i (uptimeIssues_label e i hi))

/-- Filtering an operating-hours rule's output with a predicate that rejects
the `"Operating Hours"` label yields nothing. -/
lemma hoursIssues_filter_nil (e : Equipment) (p : Issue → Bool)
    (hp : ∀ i, i.sensor = "Operating Hours" → p i = false) : (hoursIssues e).filter p = [] :=
  filter_eq_nil_of_labels _ _ (fun i hi => hp i (hoursIssues_label e i hi))

/-- The temperature rule contributes one issue exactly when the temperature
exceeds 85. -/
lemma count_temp_self (s : Sensors) :
    ((tempIssues s).filter (fun i => i.sensor == "Temperature")).length
      = if s.temperature > 85 then 1 else 0 := by
  unfold tempIssues
  split_ifs <;> simp_all <;> linarith

/-- The vibration rule contributes one issue exactly when the vibration
exceeds 1.5. -/
lemma count_vib_self (s : Sensors) :
    ((vibIssues s).filter (fun i => i.sensor == "Vibration")).length
      = if s.vibration > 3 / 2 then 1 else 0 := by
  unfold vibIssues
  split_ifs <;> simp_all <;> linarith

/-- The pressure rule contributes one issue exactly when the pressure is
outside the 80-180 band. -/
lemma count_press_self (s : Sensors) :
    ((pressureIssues s).filter (fun i => i.sensor == "Pressure")).length
      = if s.pressure > 180 ∨ s.pressure < 80 then 1 else 0 := by
  unfold pressureIssues
  split_ifs <;> simp

/-- The current rule contributes one issue exactly when the current exceeds 25. -/
lemma count_curr_self (s : Sensors) :
    ((currentIssues s).filter (fun i => i.sensor == "Current")).length
      = if s.current > 25 then 1 else 0 := by
  unfold currentIssues
  split_ifs <;> simp

/-- The status rule contributes one System Status issue exactly when the
status is `"critical"`. -/
lemma count_status_ss (e : Equipment) :
    ((statusIssues e).filter (fun i => i.sensor == "System Status")).length
      = if e.status = "critical" then 1 else 0 := by
  unfold statusIssues
  split_ifs <;> simp

/-- The status rule contributes one Maintenance Schedule issue exactly when
the status is `"maintenance"` (which excludes `"critical"`). -/
lemma count_status_ms (e : Equipment) :
    ((statusIssues e).filter (fun i => i.sensor == "Maintenance Schedule")).length
      = if e.status = "maintenance" then 1 else 0 := by
  unfold statusIssues
  split_ifs with h1 h2 <;> simp_all

/-- The uptime rule contributes one issue exactly when uptime is below 85. -/
lemma count_uptime_self (e : Equipment) :
    ((uptimeIssues e).filter (fun i => i.sensor == "Uptime")).length
      = if e.uptime < 85 then 1 else 0 := by
  unfold uptimeIssues
  split_ifs <;> simp

/-- The operating-hours rule contributes one issue exactly when the hours
exceed 4000. -/
lemma count_hours_self (e : Equipment) :
    ((hoursIssues e).filter (fun i => i.sensor == "Operating Hours")).length
      = if e.operatingHours > 4000 then 1 else 0 := by
  unfold hoursIssues
  split_ifs <;> simp

/-- The diagnosis contains a Temperature issue exactly when the temperature
rule matches, independent of every other rule. -/
lemma countIssues_temperature (e : Equipment) :
    countIssues e "Temperature"
      = ((sensorsOf e).elim 0 fun s => if s.temperature > 85 then 1 else 0) := by
  rcases hs : sensorsOf e with _ | s
  · unfold countIssues countP
    rw [analyzeRootCause_eq_of_no_sensors e hs]
    simp only [List.filter_append, List.length_append]
    rw [statusIssues_filter_nil e _ (fun i hi => by rcases hi with h | h <;> simp [h]),
      uptimeIssues_filter_nil e _ (fun i hi => by simp [hi]),
      hoursIssues_filter_nil e _ (fun i hi => by simp [hi])]
    simp [hs]
  · unfold countIssues countP
    rw [analyzeRootCause_eq_of_sensors e s hs]
    simp only [List.filter_append, List.length_append]
    rw [vibIssues_filter_nil s _ (fun i hi => by simp [hi]),
      pressureIssues_filter_nil s _ (fun i hi => by simp [hi]),
      currentIssues_filter_nil s _ (fun i hi => by simp [hi]),
      statusIssues_filter_nil e _ (fun i hi => by rcases hi with h | h <;> simp [h]),
      uptimeIssues_filter_nil e _ (fun i hi => by simp [hi]),
      hoursIssues_filter_nil e _ (fun i hi => by simp [hi]),
      count_temp_self s]
    simp [hs]

/-- The diagnosis contains a Vibration issue exactly when the vibration rule matches, independent of every other rule. -/
lemma countIssues_vibration (e : Equipment) :
    countIssues e "Vibration" = ((sensorsOf e).elim 0 fun s => if s.vibration > 3 / 2 then 1 else 0) := by
  rcases hs : sensorsOf e with _ | s
  · unfold countIssues countP
    rw [analyzeRootCause_eq_of_no_sensors e hs]
    simp only [List.filter_append, List.length_append]
    rw [statusIssues_filter_nil e _ (fun i hi => by rcases hi with h | h <;> simp [h]),
      uptimeIssues_filter_nil e _ (fun i hi => by simp [hi]),
      hoursIssues_filter_nil e _ (fun i hi => by simp [hi])]
    simp [hs]
  · unfold countIssues countP
    rw [analyzeRootCause_eq_of_sensors e s hs]
    simp only [List.filter_append, List.length_append]
    rw [tempIssues_filter_nil s _ (fun i hi => by simp [hi]),
      pressureIssues_filter_nil s _ (fun i hi => by simp [hi]),
      currentIssues_filter_nil s _ (fun i hi => by simp [hi]),
      statusIssues_filter_nil e _ (fun i hi => by rcases hi with h | h <;> simp [h]),
      uptimeIssues_filter_nil e _ (fun i hi => by simp [hi]),
      hoursIssues_filter_nil e _ (fun i hi => by simp [hi]),
      count_vib_self s]
    simp [hs]

/-- The diagnosis contains a Pressure issue exactly when the pressure rule matches, independent of every other rule. -/
lemma countIssues_pressure (e : Equipment) :
    countIssues e "Pressure" = ((sensorsOf e).elim 0 fun s => if s.pressure > 180 ∨ s.pressure < 80 then 1 else 0) := by
  rcases hs : sensorsOf e with _ | s
  · unfold countIssues countP
    rw [analyzeRootCause_eq_of_no_sensors e hs]
    simp only [List.filter_append, List.length_append]
    rw [statusIssues_filter_nil e _ (fun i hi => by rcases hi with h | h <;> simp [h]),
      uptimeIssues_filter_nil e _ (fun i hi => by simp [hi]),
      hoursIssues_filter_nil e _ (fun i hi => by simp [hi])]
    simp [hs]
  · unfold countIssues countP
    rw [analyzeRootCause_eq_of_sensors e s hs]
    simp only [List.filter_append, List.length_append]
    rw [tempIssues_filter_nil s _ (fun i hi => by simp [hi]),
      vibIssues_filter_nil s _ (fun i hi => by simp [hi]),
      currentIssues_filter_nil s _ (fun i hi => by simp [hi]),
      statusIssues_filter_nil e _ (fun i hi => by rcases hi with h | h <;> simp [h]),
      uptimeIssues_filter_nil e _ (fun i hi => by simp [hi]),
      hoursIssues_filter_nil e _ (fun i hi => by simp [hi]),
      count_press_self s]
    simp [hs]

/-- The diagnosis contains a Current issue exactly when the current rule matches, independent of every other rule. -/
lemma countIssues_current (e : Equipment) :
    countIssues e "Current" = ((sensorsOf e).elim 0 fun s => if s.current > 25 then 1 else 0) := by
  rcases hs : sensorsOf e with _ | s
  · unfold countIssues countP
    rw [analyzeRootCause_eq_of_no_sensors e hs]
    simp only [List.filter_append, List.length_append]
    rw [statusIssues_filter_nil e _ (fun i hi => by rcases hi with h | h <;> simp [h]),
      uptimeIssues_filter_nil e _ (fun i hi => by simp [hi]),
      hoursIssues_filter_nil e _ (fun i hi => by simp [hi])]
    simp [hs]
  · unfold countIssues countP
    rw [analyzeRootCause_eq_of_sensors e s hs]
    simp only [List.filter_append, List.length_append]
    rw [tempIssues_filter_nil s _ (fun i hi => by simp [hi]),
      vibIssues_filter_nil s _ (fun i hi => by simp [hi]),
      pressureIssues_filter_nil s _ (fun i hi => by simp [hi]),
      statusIssues_filter_nil e _ (fun i hi => by rcases hi with h | h <;> simp [h]),
      uptimeIssues_filter_nil e _ (fun i hi => by simp [hi]),
      hoursIssues_filter_nil e _ (fun i hi => by simp [hi]),
      count_curr_self s]
    simp [hs]

/-- The diagnosis contains a System Status issue exactly when the status is critical, independent of every other rule. -/
lemma countIssues_system_status (e : Equipment) :
    countIssues e "System Status" = (if e.status = "critical" then 1 else 0) := by
  rcases hs : sensorsOf e with _ | s
  · unfold countIssues countP
    rw [analyzeRootCause_eq_of_no_sensors e hs]
    simp only [List.filter_append, List.length_append]
    rw [uptimeIssues_filter_nil e _ (fun i hi => by simp [hi]),
      hoursIssues_filter_nil e _ (fun i hi => by simp [hi]),
      count_status_ss e]
    simp [hs]
  · unfold countIssues countP
    rw [analyzeRootCause_eq_of_sensors e s hs]
    simp only [List.filter_append, List.length_append]
    rw [tempIssues_filter_nil s _ (fun i hi => by simp [hi]),
      vibIssues_filter_nil s _ (fun i hi => by simp [hi]),
      pressureIssues_filter_nil s _ (fun i hi => by simp [hi]),
      currentIssues_filter_nil s _ (fun i hi => by simp [hi]),
      uptimeIssues_filter_nil e _ (fun i hi => by simp [hi]),
      hoursIssues_filter_nil e _ (fun i hi => by simp [hi]),
      count_status_ss e]
    simp [hs]

/-- The diagnosis contains a Maintenance Schedule issue exactly when the status is maintenance, independent of every other rule. -/
lemma countIssues_maintenance_schedule (e : Equipment) :
    countIssues e "Maintenance Schedule" = (if e.status = "maintenance" then 1 else 0) := by
  rcases hs : sensorsOf e with _ | s
  · unfold countIssues countP
    rw [analyzeRootCause_eq_of_no_sensors e hs]
    simp only [List.filter_append, List.length_append]
    rw [uptimeIssues_filter_nil e _ (fun i hi => by simp [hi]),
      hoursIssues_filter_nil e _ (fun i hi => by simp [hi]),
      count_status_ms e]
    simp [hs]
  · unfold countIssues countP
    rw [analyzeRootCause_eq_of_sensors e s hs]
    simp only [List.filter_append, List.length_append]
    rw [tempIssues_filter_nil s _ (fun i hi => by simp [hi]),
      vibIssues_filter_nil s _ (fun i hi => by simp [hi]),
      pressureIssues_filter_nil s _ (fun i hi => by simp [hi]),
      currentIssues_filter_nil s _ (fun i hi => by simp [hi]),
      uptimeIssues_filter_nil e _ (fun i hi => by simp [hi]),
      hoursIssues_filter_nil e _ (fun i hi => by simp [hi]),
      count_status_ms e]
    simp [hs]

/-- The diagnosis contains an Uptime issue exactly when uptime is below 85, independent of every other rule. -/
lemma countIssues_uptime (e : Equipment) :
    countIssues e "Uptime" = (if e.uptime < 85 then 1 else 0) := by
  rcases hs : sensorsOf e with _ | s
  · unfold countIssues countP
    rw [analyzeRootCause_eq_of_no_sensors e hs]
    simp only [List.filter_append, List.length_append]
    rw [statusIssues_filter_nil e _ (fun i hi => by rcases hi with h | h <;> simp [h]),
      hoursIssues_filter_nil e _ (fun i hi => by simp [hi]),
      count_uptime_self e]
    simp [hs]
  · unfold countIssues countP
    rw [analyzeRootCause_eq_of_sensors e s hs]
    simp only [List.filter_append, List.length_append]
    rw [tempIssues_filter_nil s _ (fun i hi => by simp [hi]),
      vibIssues_filter_nil s _ (fun i hi => by simp [hi]),
      pressureIssues_filter_nil s _ (fun i hi => by simp [hi]),
      currentIssues_filter_nil s _ (fun i hi => by simp [hi]),
      statusIssues_filter_nil e _ (fun i hi => by rcases hi with h | h <;> simp [h]),
      hoursIssues_filter_nil e _ (fun i hi => by simp [hi]),
      count_uptime_self e]
    simp [hs]

/-- The diagnosis contains an Operating Hours issue exactly when hours exceed 4000, independent of every other rule. -/
lemma countIssues_operating_hours (e : Equipment) :
    countIssues e "Operating Hours" = (if e.operatingHours > 4000 then 1 else 0) := by
  rcases hs : sensorsOf e with _ | s
  · unfold countIssues countP
    rw [analyzeRootCause_eq_of_no_sensors e hs]
    simp only [List.filter_append, List.length_append]
    rw [statusIssues_filter_nil e _ (fun i hi => by rcases hi with h | h <;> simp [h]),
      uptimeIssues_filter_nil e _ (fun i hi => by simp [hi]),
      count_hours_self e]
    simp [hs]
  · unfold countIssues countP
    rw [analyzeRootCause_eq_of_sensors e s hs]
    simp only [List.filter_append, List.length_append]
    rw [tempIssues_filter_nil s _ (fun i hi => by simp [hi]),
      vibIssues_filter_nil s _ (fun i hi => by simp [hi]),
      pressureIssues_filter_nil s _ (fun i hi => by simp [hi]),
      currentIssues_filter_nil s _ (fun i hi => by simp [hi]),
      statusIssues_filter_nil e _ (fun i hi => by rcases hi with h | h <;> simp [h]),
      uptimeIssues_filter_nil e _ (fun i hi => by simp [hi]),
      count_hours_self e]
    simp [hs]

/-- The temperature rule only emits `"Temperature"` issues. -/
lemma tempIssues_map_sublist (s : Sensors) :
    ((tempIssues s).map Issue.sensor).Sublist ["Temperature"] := by
  unfold tempIssues
  split_ifs <;> simp

/-- The vibration rule only emits `"Vibration"` issues. -/
lemma vibIssues_map_sublist (s : Sensors) :
    ((vibIssues s).map Issue.sensor).Sublist ["Vibration"] := by
  unfold vibIssues
  split_ifs <;> simp

/-- The pressure rule only emits `"Pressure"` issues. -/
lemma pressureIssues_map_sublist (s : Sensors) :
    ((pressureIssues s).map Issue.sensor).Sublist ["Pressure"] := by
  unfold pressureIssues
  split_ifs <;> simp

/-- The current rule only emits `"Current"` issues. -/
lemma currentIssues_map_sublist (s : Sensors) :
    ((currentIssues s).map Issue.sensor).Sublist ["Current"] := by
  unfold currentIssues
  split_ifs <;> simp

/-- The status rule emits at most one of its two labels, in order. -/
lemma statusIssues_map_sublist (e : Equipment) :
    ((statusIssues e).map Issue.sensor).Sublist ["System Status", "Maintenance Schedule"] := by
  unfold statusIssues
  split_ifs <;> simp

/-- The uptime rule only emits `"Uptime"` issues. -/
lemma uptimeIssues_map_sublist (e : Equipment) :
    ((uptimeIssues e).map Issue.sensor).Sublist ["Uptime"] := by
  unfold uptimeIssues
  split_ifs <;> simp

/-- The operating-hours rule only emits `"Operating Hours"` issues. -/
lemma hoursIssues_map_sublist (e : Equipment) :
    ((hoursIssues e).map Issue.sensor).Sublist ["Operating Hours"] := by
  unfold hoursIssues
  split_ifs <;> simp

/-- The diagnosis lists its issues in the fixed rule-evaluation order. -/
lemma analyzeRootCause_sensor_order (e : Equipment) :
    ((analyzeRootCause e).map Issue.sensor).Sublist
      ["Temperature", "Vibration", "Pressure", "Current", "System Status",
       "Maintenance Schedule", "Uptime", "Operating Hours"] := by
  rcases hs : sensorsOf e with _ | s
  · rw [analyzeRootCause_eq_of_no_sensors e hs]
    simp only [List.map_append]
    have h : ((statusIssues e).map Issue.sensor ++ (uptimeIssues e).map Issue.sensor
        ++ (hoursIssues e).map Issue.sensor).Sublist
        (["System Status", "Maintenance Schedule"] ++ ["Uptime"] ++ ["Operating Hours"]) :=
      ((statusIssues_map_sublist e).append (uptimeIssues_map_sublist e)).append
        (hoursIssues_map_sublist e)
    exact h.trans (List.sublist_append_right
      ["Temperature", "Vibration", "Pressure", "Current"] _)
  · rw [analyzeRootCause_eq_of_sensors e s hs]
    simp only [List.map_append]
    exact ((((((tempIssues_map_sublist s).append (vibIssues_map_sublist s)).append
      (pressureIssues_map_sublist s)).append (currentIssues_map_sublist s)).append
      (statusIssues_map_sublist e)).append (uptimeIssues_map_sublist e)).append
      (hoursIssues_map_sublist e)

/-- Claim C2 as amended: every issue whose rule matches is returned — each
channel's issue count is decided by that rule's own guard alone, so no
issue is suppressed because a higher-severity issue also fired — and the
sequence is in the fixed rule-evaluation order (Temperature, Vibration,
Pressure, Current, System Status, Maintenance Schedule, Uptime, Operating
Hours).  It is NOT in general sorted critical before warning before info:
that grouping is applied by the presentation layer
(`EnhancedEquipmentPopup` filters by severity), not by `analyzeRootCause`. -/
theorem analyzeRootCause_returns_all_matched_rules (e : Equipment) :
    countIssues e "Temperature"
        = ((sensorsOf e).elim 0 fun s => if s.temperature > 85 then 1 else 0)
    ∧ countIssues e "Vibration"
        = ((sensorsOf e).elim 0 fun s => if s.vibration > 3 / 2 then 1 else 0)
    ∧ countIssues e "Pressure"
        = ((sensorsOf e).elim 0 fun s => if s.pressure > 180 ∨ s.pressure < 80 then 1 else 0)
    ∧ countIssues e "Current"
        = ((sensorsOf e).elim 0 fun s => if s.current > 25 then 1 else 0)
    ∧ countIssues e "System Status" = (if e.status = "critical" then 1 else 0)
    ∧ countIssues e "Maintenance Schedule" = (if e.status = "maintenance" then 1 else 0)
    ∧ countIssues e "Uptime" = (if e.uptime < 85 then 1 else 0)
    ∧ countIssues e "Operating Hours" = (if e.operatingHours > 4000 then 1 else 0)
    ∧ ((analyzeRootCause e).map Issue.sensor).Sublist
        ["Temperature", "Vibration", "Pressure", "Current", "System Status",
         "Maintenance Schedule", "Uptime", "Operating Hours"] :=
  ⟨countIssues_temperature e, countIssues_vibration e, countIssues_pressure e,
   countIssues_current e, countIssues_system_status e, countIssues_maintenance_schedule e,
   countIssues_uptime e, countIssues_operating_hours e, analyzeRootCause_sensor_order e⟩

/-- The C2 counterexample equipment: warning-level temperature (90°F)
together with critical-level vibration (2.5 g), everything else benign. -/
def cex2Equipment : Equipment :=
  { mlPrediction := some ⟨some ⟨90, 5 / 2, 125, 10⟩⟩
    status := "operational", uptime := 99, operatingHours := 100 }

/-- Counterexample to claim C2 as stated: the diagnosis of
`cex2Equipment` is `[warning Temperature, critical Vibration]` — a warning
precedes a critical issue, so the returned sequence is not sorted by
severity. -/
theorem diagnose_not_sorted_by_severity :
    (analyzeRootCause cex2Equipment).map Issue.type = [.warning, .critical]
    ∧ ¬ SortedBySeverity (analyzeRootCause cex2Equipment) := by
  have h : (analyzeRootCause cex2Equipment).map Issue.type = [.warning, .critical] := by
    norm_num [analyzeRootCause, cex2Equipment, sensorsOf, tempIssues, vibIssues,
      pressureIssues, currentIssues, statusIssues, uptimeIssues, hoursIssues]
    try simp
  refine ⟨h, ?_⟩
  intro hsorted
  unfold SortedBySeverity at hsorted
  rw [show (fun i => sevRank i.type) = sevRank ∘ Issue.type from rfl,
    ← List.map_map, h] at hsorted
  simp [sevRank] at hsorted

/-- Claim C7: the per-channel thresholds match the spec table at the probe
points.  Temperature 100°F: exactly one critical and no warning Temperature
issue; 90°F: exactly one warning and no critical; 80°F: none.  Pressure
190 PSI: the single Pressure issue is critical with the "too high" message;
70 PSI: warning with the "below minimum" message; 125 PSI: none. -/
theorem diagnose_probe_points (e : Equipment) (mp : EquipmentML) (s : Sensors)
    (h1 : e.mlPrediction = some mp) (h2 : mp.sensors = some s) :
    (s.temperature = 100 →
      countSev e "Temperature" .critical = 1 ∧ countSev e "Temperature" .warning = 0)
    ∧ (s.temperature = 90 →
      countSev e "Temperature" .warning = 1 ∧ countSev e "Temperature" .critical = 0)
    ∧ (s.temperature = 80 → countIssues e "Temperature" = 0)
    ∧ (s.pressure = 190 →
      (analyzeRootCause e).filter (fun i => i.sensor == "Pressure")
        = [{ type := .critical, sensor := "Pressure", threshold := "80-180 PSI",
             status := "CRITICAL - Pressure too high",
             impact := "System damage risk, reduce load", icon := "🔘",
             color := "text-red-600 bg-red-50 border-red-200" }])
    ∧ (s.pressure = 70 →
      (analyzeRootCause e).filter (fun i => i.sensor == "Pressure")
        = [{ type := .warning, sensor := "Pressure", threshold := "80-180 PSI",
             status := "LOW - Pressure below minimum",
             impact := "Performance degradation, check filters", icon := "🔘",
             color := "text-yellow-600 bg-yellow-50 border-yellow-200" }])
    ∧ (s.pressure = 125 → countIssues e "Pressure" = 0) := by
  have hs : sensorsOf e = some s := by simp [sensorsOf, h1, h2]
  refine ⟨?_, ?_, ?_, ?_, ?_, ?_⟩
  · intro ht
    refine ⟨?_, ?_⟩ <;>
    · unfold countSev countP
      rw [analyzeRootCause_eq_of_sensors e s hs]
      simp only [List.filter_append, List.length_append]
      rw [vibIssues_filter_nil s _ (fun i hi => by simp [hi]),
        pressureIssues_filter_nil s _ (fun i hi => by simp [hi]),
        currentIssues_filter_nil s _ (fun i hi => by simp [hi]),
        statusIssues_filter_nil e _ (fun i hi => by rcases hi with h | h <;> simp [h]),
        uptimeIssues_filter_nil e _ (fun i hi => by simp [hi]),
        hoursIssues_filter_nil e _ (fun i hi => by simp [hi])]
      norm_num [tempIssues, ht]
      try rfl
  · intro ht
    refine ⟨?_, ?_⟩ <;>
    · unfold countSev countP
      rw [analyzeRootCause_eq_of_sensors e s hs]
      simp only [List.filter_append, List.length_append]
      rw [vibIssues_filter_nil s _ (fun i hi => by simp [hi]),
        pressureIssues_filter_nil s _ (fun i hi => by simp [hi]),
        currentIssues_filter_nil s _ (fun i hi => by simp [hi]),
        statusIssues_filter_nil e _ (fun i hi => by rcases hi with h | h <;> simp [h]),
        uptimeIssues_filter_nil e _ (fun i hi => by simp [hi]),
        hoursIssues_filter_nil e _ (fun i hi => by simp [hi])]
      norm_num [tempIssues, ht]
      try rfl
  · intro ht
    rw [countIssues_temperature e, hs]
    norm_num [ht]
  · intro hp
    rw [analyzeRootCause_eq_of_sensors e s hs]
    simp only [List.filter_append]
    rw [tempIssues_filter_nil s _ (fun i hi => by simp [hi]),
      vibIssues_filter_nil s _ (fun i hi => by simp [hi]),
      currentIssues_filter_nil s _ (fun i hi => by simp [hi]),
      statusIssues_filter_nil e _ (fun i hi => by rcases hi with h | h <;> simp [h]),
      uptimeIssues_filter_nil e _ (fun i hi => by simp [hi]),
      hoursIssues_filter_nil e _ (fun i hi => by simp [hi])]
    norm_num [pressureIssues, hp]
    try rfl
  · intro hp
    rw [analyzeRootCause_eq_of_sensors e s hs]
    simp only [List.filter_append]
    rw [tempIssues_filter_nil s _ (fun i hi => by simp [hi]),
      vibIssues_filter_nil s _ (fun i hi => by simp [hi]),
      currentIssues_filter_nil s _ (fun i hi => by simp [hi]),
      statusIssues_filter_nil e _ (fun i hi => by rcases hi with h | h <;> simp [h]),
      uptimeIssues_filter_nil e _ (fun i hi => by simp [hi]),
      hoursIssues_filter_nil e _ (fun i hi => by simp [hi])]
    norm_num [pressureIssues, hp]
    try rfl
  · intro hp
    rw [countIssues_pressure e, hs]
    norm_num [hp]

/-- A concrete equipment record for the C7 witness: attached sensors with
temperature 100°F and pressure 125 PSI. -/
def witEquipment7 : Equipment :=
  { mlPrediction := some ⟨some ⟨100, 1, 125, 10⟩⟩
    status := "operational", uptime := 99, operatingHours := 100 }

/-- Witness for C7 at temperature 100°F and pressure 125 PSI. -/
theorem diagnose_probe_points_witness :
    countSev witEquipment7 "Temperature" .critical = 1
    ∧ countSev witEquipment7 "Temperature" .warning = 0
    ∧ countIssues witEquipment7 "Pressure" = 0 := by
  obtain ⟨ha, _, _, _, _, hf⟩ :=
    diagnose_probe_points witEquipment7 ⟨some ⟨100, 1, 125, 10⟩⟩ ⟨100, 1, 125, 10⟩ rfl rfl
  obtain ⟨ha1, ha2⟩ := ha rfl
  exact ⟨ha1, ha2, hf rfl⟩
